import Mathlib

/-!
Verification development for the `scrapers` repository.

The file shallowly embeds the scraping logic of the repository:

* the incremental scroll-and-settle loader loop shared by
  `accupass_scraper.py` (item-count measurement) and `generic_scraper.py`
  (page-height measurement);
* the per-card field extractor of `accupass_scraper.py`;
* the meta-tag metadata extractor of `generic_scraper.py`;
* the `/scrape` dispatcher of `main.py`;
* `ScraperBase.build_url` of `scraper_base.py`.

Browser, network and configuration-file I/O are abstracted as explicit
inputs (a page is a finite map from selectors to elements, a fetch is a
function from URLs to page data); all definitions are otherwise translated
directly from the Python source.
-/

namespace Scrapers

/-! ## Incremental loader (`accupass_scraper.py` lines 54-91,
`generic_scraper.py` lines 51-97)

Both scrape loops keep a last measurement (`last_count` resp.
`last_height`, initialised to 0) and a `consecutive_same_count`
(initialised to 0).  Each iteration takes one fresh measurement; if it
equals the stored one the counter is incremented and the loop breaks as
soon as the counter reaches `max_consecutive_same`; otherwise the counter
is reset to 0.  In both branches the stored measurement becomes the fresh
one.  The "load more" click only influences what the *next* measurement
reads, so the loop's control state is fully determined by the sequence of
measurements, which we model as a function `Nat → Nat`. -/

structure LoadState where
  lastCount : Nat
  consecutiveSameCount : Nat
deriving DecidableEq

/-- One iteration of the scroll loop acting on the control state, given
the fresh measurement `m` (`current_count` / `current_height`). -/
def loadStep (s : LoadState) (m : Nat) : LoadState :=
  if m = s.lastCount then
    LoadState.mk m (s.consecutiveSameCount + 1)
  else
    LoadState.mk m 0

/-- Control state after the first `n` iterations of the loop, where
`measure i` is the measurement taken in iteration `i + 1`. -/
def loadStateAfter (measure : Nat → Nat) : Nat → LoadState
  | 0 => LoadState.mk 0 0
  | n + 1 => loadStep (loadStateAfter measure n) (measure n)

/-- The loop breaks exactly at the end of iteration `n`: the
consecutive-same counter has reached the threshold there and at no
earlier iteration (the `break` fires the first time
`consecutive_same_count >= max_consecutive_same`). -/
def loaderBreaksAt (measure : Nat → Nat) (threshold n : Nat) : Prop :=
  threshold ≤ (loadStateAfter measure n).consecutiveSameCount ∧
  ∀ k < n, (loadStateAfter measure k).consecutiveSameCount < threshold

instance (measure : Nat → Nat) (threshold n : Nat) :
    Decidable (loaderBreaksAt measure threshold n) := by
  unfold loaderBreaksAt
  infer_instance

/-- The measurement sequence of the loader-termination test case:
readings 1..10 are 5,9,9,9,9,12,12,12,12,12; afterwards the page is
exhausted, so every further measurement still reads 12. -/
def seqC1 : Nat → Nat :=
  fun i => List.getD [5, 9, 9, 9, 9, 12, 12, 12, 12, 12] i 12

/-- C1 counterexample: against the measurement sequence
[5,9,9,9,9,12,12,12,12,12] with threshold 5, the loop has NOT terminated
at the end of the run of five 12s (iteration 10): the counter only counts
readings equal to their predecessor, so the five-reading run of 12s
leaves it at 4, below the threshold. -/
theorem loader_not_done_at_ten_c1 :
    (loadStateAfter seqC1 10).consecutiveSameCount = 4 ∧
    ¬ loaderBreaksAt seqC1 5 10 := by
  decide

/-- C1 (amended): the loop does not terminate during the length-4 plateau
of 9s (nor anywhere before iteration 11); with the measurement staying at
12 after the listed readings, it terminates exactly at iteration 11, one
reading after the end of the 12,12,12,12,12 run, when five consecutive
unchanged readings (a run of six equal measurements) have been seen. -/
theorem loader_terminates_at_eleven_c1 : loaderBreaksAt seqC1 5 11 := by
  decide

/-! ## String helpers

Kernel-reducible models of the Python string operations the source uses:
`str.startswith`, `str.lstrip('/')`, `'?' in url`, and the truthiness
test applied to optional strings (Python `if x:` is false for both `None`
and `''`). -/

def charsStartWith : List Char → List Char → Bool
  | _, [] => true
  | [], _ :: _ => false
  | c :: cs, p :: ps => c == p && charsStartWith cs ps

/-- Python `s.startswith(pre)`. -/
def strStartsWith (s pre : String) : Bool :=
  charsStartWith s.toList pre.toList

/-- Python `path.lstrip('/')`. -/
def stripLeadingSlashes (s : String) : String :=
  String.mk (s.toList.dropWhile (fun c => c == '/'))

/-- Python `c in s` for a single character. -/
def strContainsChar (s : String) (c : Char) : Bool :=
  s.toList.contains c

/-- Python truthiness of an optional string: `None` and `''` are falsy. -/
def pyTruthy : Option String → Bool
  | none => false
  | some s => s ≠ ""

/-! ## DOM model and per-card field extractor
(`accupass_scraper.py` lines 98-140)

A located item element exposes the two operations the extractor uses:
`inner_text()` and `get_attribute('href')` (the latter may return Python
`None`, modelled as `none`).  A card is a finite map from selector
strings to the element `query_selector` returns, plus a `detached` flag:
a detached card models the transient DOM failure whose exception the
per-item `try`/`except` of the source catches, making every access to
the card raise. -/

structure Elem where
  innerText : String
  href : Option String
deriving DecidableEq

structure Card where
  elems : List (String × Elem)
  detached : Bool
deriving DecidableEq

/-- `card.query_selector(sel)`. -/
def Card.querySelector (c : Card) (sel : String) : Option Elem :=
  List.lookup sel c.elems

/-- The selector-fallback loop used for the title, time and location
fields: try each candidate in order, stop at the first that locates an
element (`for selector in ...: if elem: ...; break`). -/
def firstMatch (c : Card) : List String → Option Elem
  | [] => none
  | s :: rest =>
    match c.querySelector s with
    | some e => some e
    | none => firstMatch c rest

/-- Value of a text field: the first matching candidate's `inner_text()`,
or the field's sentinel when no candidate matches. -/
def textField (c : Card) (sels : List String) (sentinel : String) : String :=
  match firstMatch c sels with
  | some e => e.innerText
  | none => sentinel

/-- Link absolutization (`accupass_scraper.py` lines 103-104):
`if event_link and not event_link.startswith('http'): event_link =
f"{base_url}{event_link}"`.  The argument is the raw
`get_attribute('href')` result (`none` models Python `None`, which is
falsy and passes through). -/
def resolveLink (base : String) (eventLink : Option String) : Option String :=
  match eventLink with
  | none => none
  | some h =>
    if h ≠ "" ∧ strStartsWith h "http" = false then some (base ++ h) else some h

/-- The per-site ordered selector candidate lists
(`config['sites'][site]['selectors']`, read through
`ScraperBase.get_selector`). -/
structure SelectorCfg where
  card : List String
  link : List String
  title : List String
  time : List String
  location : List String
deriving DecidableEq

structure EventRecord where
  title : String
  link : Option String
  time : String
  location : String
deriving DecidableEq

/-- Extraction of one card (`accupass_scraper.py` lines 98-138).
Returns `none` when the extraction raises and the per-item handler
swallows the item: either the card is detached (any DOM access raises)
or the link selector list is empty (`self.get_selector('link')[0]`
raises `IndexError`).  Only the FIRST link candidate is consulted; if it
finds no element, `event_link` is `''`.  The three text fields run the
full fallback loop with their fixed sentinels. -/
def extractRecord (c : Card) (cfg : SelectorCfg) (base : String) : Option EventRecord :=
  if c.detached then none
  else
    match cfg.link with
    | [] => none
    | s :: _ =>
      let rawLink : Option String :=
        match c.querySelector s with
        | some e => e.href
        | none => some ""
      some (EventRecord.mk
        (textField c cfg.title "未知標題")
        (resolveLink base rawLink)
        (textField c cfg.time "未知時間")
        (textField c cfg.location "未知地點"))

/-- The per-item loop with its `try`/`except`: failed items are logged
and omitted, successful ones appended in card order. -/
def extractAll (cards : List Card) (cfg : SelectorCfg) (base : String) : List EventRecord :=
  cards.filterMap (fun c => extractRecord c cfg base)

/-- Card used to exhibit the link-field behaviour for C2: selector "A"
matches nothing, selector "B" matches an element carrying a relative
href. -/
def cexCard : Card :=
  Card.mk [("B", Elem.mk "Evt" (some "/e/1"))] false

def cexCfg : SelectorCfg :=
  SelectorCfg.mk ["C"] ["A", "B"] ["A", "B"] ["A", "B"] ["A", "B"]

/-- C2 counterexample: with link chain [A, B] where only B matches, the
extracted link is the empty-string sentinel, not B's (resolved) href:
the source consults only `get_selector('link')[0]` for the link field. -/
theorem link_first_candidate_only_c2 :
    cexCard.querySelector "A" = none ∧
    cexCard.querySelector "B" = some (Elem.mk "Evt" (some "/e/1")) ∧
    (extractRecord cexCard cexCfg "https://x.test").map EventRecord.link = some (some "") ∧
    (extractRecord cexCard cexCfg "https://x.test").map EventRecord.link ≠
      some (resolveLink "https://x.test" (some "/e/1")) := by
  decide

/-- C2 (amended): for the title, time and location fields the extractor
tries the candidates in list order and returns the value of the first
candidate that locates an element (with chain [A, B] where only B
matches, each of those fields equals B's text); for the link field only
the first candidate is ever consulted, so with the same chain the link
falls back to the empty-string sentinel even though B matches. -/
theorem fallback_order_amended_c2 (c : Card) (base A B : String) (cardSels : List String)
    (e : Elem) (r : EventRecord)
    (hd : c.detached = false)
    (hA : c.querySelector A = none) (hB : c.querySelector B = some e)
    (hr : extractRecord c (SelectorCfg.mk cardSels [A, B] [A, B] [A, B] [A, B]) base = some r) :
    r.title = e.innerText ∧ r.time = e.innerText ∧ r.location = e.innerText ∧
    r.link = some "" := by
  simp only [extractRecord, hd, Bool.false_eq_true, if_false, textField, firstMatch,
    hA, hB, resolveLink, Option.some.injEq] at hr
  subst hr
  simp [resolveLink]

/-- C2 amended-theorem witness at the concrete counterexample card. -/
theorem fallback_order_amended_c2_witness :
    (EventRecord.mk "Evt" (some "") "Evt" "Evt").title = "Evt" ∧
    (EventRecord.mk "Evt" (some "") "Evt" "Evt").time = "Evt" ∧
    (EventRecord.mk "Evt" (some "") "Evt" "Evt").location = "Evt" ∧
    (EventRecord.mk "Evt" (some "") "Evt" "Evt").link = some "" :=
  fallback_order_amended_c2 cexCard "https://x.test" "A" "B" ["C"]
    (Elem.mk "Evt" (some "/e/1")) (EventRecord.mk "Evt" (some "") "Evt" "Evt")
    (by decide) (by decide) (by decide) (by decide)

/-- C3: whenever per-item extraction produces a record, every field whose
candidate selectors all fail to match takes its fixed sentinel (unknown
title / unknown time / unknown location, empty string for the link),
while every text field whose fallback chain does match takes the first
matching candidate's text, unaffected by the other fields. -/
theorem missing_field_sentinels_c3 (c : Card) (cfg : SelectorCfg) (base : String)
    (r : EventRecord) (hr : extractRecord c cfg base = some r) :
    (firstMatch c cfg.title = none → r.title = "未知標題") ∧
    (∀ e, firstMatch c cfg.title = some e → r.title = e.innerText) ∧
    (firstMatch c cfg.time = none → r.time = "未知時間") ∧
    (∀ e, firstMatch c cfg.time = some e → r.time = e.innerText) ∧
    (firstMatch c cfg.location = none → r.location = "未知地點") ∧
    (∀ e, firstMatch c cfg.location = some e → r.location = e.innerText) ∧
    ((∀ s ∈ cfg.link, c.querySelector s = none) → r.link = some "") := by
  by_cases hd : c.detached
  · simp [extractRecord, hd] at hr
  · cases hcl : cfg.link with
    | nil => simp [extractRecord, hd, hcl] at hr
    | cons s rest =>
      simp only [extractRecord, hd, Bool.false_eq_true, if_false, hcl,
        Option.some.injEq] at hr
      subst hr
      refine ⟨fun h => by simp [textField, h], fun e he => by simp [textField, he],
        fun h => by simp [textField, h], fun e he => by simp [textField, he],
        fun h => by simp [textField, h], fun e he => by simp [textField, he],
        fun hall => ?_⟩
      have hs : c.querySelector s = none := hall s (by simp [hcl])
      simp [hs, resolveLink]

/-- Concrete card for the C3 witness: the title selector matches, the
link, time and location selectors do not. -/
def sentinelCard : Card :=
  Card.mk [("T", Elem.mk "Party" none)] false

def sentinelCfg : SelectorCfg :=
  SelectorCfg.mk ["C"] ["LK"] ["T"] ["TM"] ["L"]

/-- C3 witness at a concrete card: location, time and link fall back to
their sentinels while the matching title field is extracted normally. -/
theorem missing_field_sentinels_c3_witness :
    (firstMatch sentinelCard sentinelCfg.title = none →
      (EventRecord.mk "Party" (some "") "未知時間" "未知地點").title = "未知標題") ∧
    (∀ e, firstMatch sentinelCard sentinelCfg.title = some e →
      (EventRecord.mk "Party" (some "") "未知時間" "未知地點").title = e.innerText) ∧
    (firstMatch sentinelCard sentinelCfg.time = none →
      (EventRecord.mk "Party" (some "") "未知時間" "未知地點").time = "未知時間") ∧
    (∀ e, firstMatch sentinelCard sentinelCfg.time = some e →
      (EventRecord.mk "Party" (some "") "未知時間" "未知地點").time = e.innerText) ∧
    (firstMatch sentinelCard sentinelCfg.location = none →
      (EventRecord.mk "Party" (some "") "未知時間" "未知地點").location = "未知地點") ∧
    (∀ e, firstMatch sentinelCard sentinelCfg.location = some e →
      (EventRecord.mk "Party" (some "") "未知時間" "未知地點").location = e.innerText) ∧
    ((∀ s ∈ sentinelCfg.link, sentinelCard.querySelector s = none) →
      (EventRecord.mk "Party" (some "") "未知時間" "未知地點").link = some "") :=
  missing_field_sentinels_c3 sentinelCard sentinelCfg "https://x.test"
    (EventRecord.mk "Party" (some "") "未知時間" "未知地點") (by decide)

/-- C5: one item whose extraction raises (modelled: `extractRecord`
returns `none`) is omitted while the surrounding items still produce
their records in order — with three cards where the middle one raises,
the batch result is exactly the first and third records. -/
theorem per_item_isolation_c5 (cfg : SelectorCfg) (base : String) (c1 c2 c3 : Card)
    (r1 r3 : EventRecord)
    (h1 : extractRecord c1 cfg base = some r1)
    (h2 : extractRecord c2 cfg base = none)
    (h3 : extractRecord c3 cfg base = some r3) :
    extractAll [c1, c2, c3] cfg base = [r1, r3] := by
  simp [extractAll, h1, h2, h3]

/-- A detached card: every DOM access on it raises, so its extraction
fails. -/
def detachedCard : Card :=
  Card.mk [("T", Elem.mk "Gone" none)] true

/-- C5 witness: a concrete three-card batch whose middle card is
detached yields exactly the first and third records. -/
theorem per_item_isolation_c5_witness :
    extractAll [sentinelCard, detachedCard, sentinelCard] sentinelCfg "https://x.test" =
      [EventRecord.mk "Party" (some "") "未知時間" "未知地點",
       EventRecord.mk "Party" (some "") "未知時間" "未知地點"] :=
  per_item_isolation_c5 sentinelCfg "https://x.test" sentinelCard detachedCard sentinelCard
    (EventRecord.mk "Party" (some "") "未知時間" "未知地點")
    (EventRecord.mk "Party" (some "") "未知時間" "未知地點")
    (by decide) (by decide) (by decide)

/-- C4: the link absolutization of the extractor. A raw href that
starts with the recognized URL scheme literal "http" (which covers
absolute http/https URLs) passes through unchanged; a non-empty href
that does not is prefixed with the site's base URL; in particular
base "https://x.test" with href "/e/123" yields
"https://x.test/e/123". -/
theorem link_absolutization_c4 (base h : String) :
    (strStartsWith h "http" = true → resolveLink base (some h) = some h) ∧
    (h ≠ "" → strStartsWith h "http" = false → resolveLink base (some h) = some (base ++ h)) ∧
    resolveLink "https://x.test" (some "/e/123") = some "https://x.test/e/123" ∧
    resolveLink "https://x.test" (some "https://y.test/e/1") = some "https://y.test/e/1" := by
  refine ⟨fun hs => ?_, fun hne hs => ?_, by decide, by decide⟩
  · simp [resolveLink, hs]
  · simp [resolveLink, hs, hne]

/-- C4 witness: both implications applied at concrete hrefs. -/
theorem link_absolutization_c4_witness :
    resolveLink "https://z.test" (some "https://y.test/e/1") = some "https://y.test/e/1" ∧
    resolveLink "https://z.test" (some "/e/9") = some ("https://z.test" ++ "/e/9") :=
  ⟨(link_absolutization_c4 "https://z.test" "https://y.test/e/1").1 (by decide),
   (link_absolutization_c4 "https://z.test" "/e/9").2.1 (by decide) (by decide)⟩

/-! ## Generic-strategy metadata extraction
(`generic_scraper.py` lines 117-141)

`_extract_metadata` walks the page's meta tags in document order; per
tag it computes `name = get_attribute('name') or get_attribute('property')`
(Python `or`: an absent or empty `name` falls back to `property`) and
`content = get_attribute('content')`, and assigns
`metadata[name] = content` when both are truthy.  The Python dict is
modelled as an insertion-ordered association list with
overwrite-in-place assignment (`setKey`). -/

structure MetaTag where
  name : Option String
  property : Option String
  content : Option String
deriving DecidableEq

/-- Python `a or b` on optional strings: a truthy `a` wins, an absent or
empty `a` yields `b`. -/
def pyOr (a b : Option String) : Option String :=
  match a with
  | some s => if s = "" then b else some s
  | none => b

/-- Python `d[k] = v` on an insertion-ordered dict: overwrite the
existing entry in place, or append a new one. -/
def setKey : List (String × String) → String → String → List (String × String)
  | [], k, v => [(k, v)]
  | p :: rest, k, v => if p.1 = k then (k, v) :: rest else p :: setKey rest k v

/-- Python `d.get(k)` on an insertion-ordered dict. -/
def lookupKey {β : Type} (k : String) : List (String × β) → Option β
  | [] => none
  | p :: rest => if p.1 = k then some p.2 else lookupKey k rest

/-- Processing of one meta tag (`generic_scraper.py` lines 131-139):
record `name ↦ content` only when both are truthy. -/
def metaStep (md : List (String × String)) (t : MetaTag) : List (String × String) :=
  match pyOr t.name t.property, t.content with
  | some n, some c => if n ≠ "" ∧ c ≠ "" then setKey md n c else md
  | _, _ => md

/-- `GenericScraper._extract_metadata`: fold the per-tag step over the
meta tags in document order, starting from the empty dict. -/
def extractMetadata (tags : List MetaTag) : List (String × String) :=
  tags.foldl metaStep []

/-- Specification-side description of one tag's contribution to key `k`:
the tag's content when its name-like key (name preferred, property as
fallback) equals `k` and both key and content are non-empty, nothing
otherwise. -/
def metaContrib (k : String) (t : MetaTag) : Option String :=
  match pyOr t.name t.property, t.content with
  | some n, some c => if n = k ∧ n ≠ "" ∧ c ≠ "" then some c else none
  | _, _ => none

/-- Specification-side description of the final value at key `k`: the
LAST contribution in document order (later tags with the same key
overwrite earlier ones). -/
def lastContrib (k : String) : List MetaTag → Option String
  | [] => none
  | t :: ts =>
    match lastContrib k ts with
    | some c => some c
    | none => metaContrib k t

lemma lookupKey_setKey_self (md : List (String × String)) (k v : String) :
    lookupKey k (setKey md k v) = some v := by
  induction md with
  | nil => simp [setKey, lookupKey]
  | cons p rest ih =>
    by_cases hp : p.1 = k
    · simp [setKey, hp, lookupKey]
    · simp [setKey, hp, lookupKey, ih]

lemma lookupKey_setKey_ne (md : List (String × String)) (k n v : String) (h : n ≠ k) :
    lookupKey k (setKey md n v) = lookupKey k md := by
  induction md with
  | nil => simp [setKey, lookupKey, h]
  | cons p rest ih =>
    by_cases hp : p.1 = n
    · simp [setKey, hp, lookupKey, h]
    · simp [setKey, hp, lookupKey, ih]

lemma lookupKey_metaStep_contrib (md : List (String × String)) (t : MetaTag) (k c : String)
    (h : metaContrib k t = some c) :
    lookupKey k (metaStep md t) = some c := by
  unfold metaContrib at h
  unfold metaStep
  cases hn : pyOr t.name t.property with
  | none => simp [hn] at h
  | some n =>
    cases hc : t.content with
    | none => simp [hn, hc] at h
    | some c' =>
      simp only [hn, hc] at h ⊢
      by_cases hcond : n = k ∧ n ≠ "" ∧ c' ≠ ""
      · obtain ⟨hk, hn1, hc1⟩ := hcond
        subst hk
        rw [if_pos (And.intro rfl (And.intro hn1 hc1))] at h
        rw [if_pos (And.intro hn1 hc1), lookupKey_setKey_self]
        exact h
      · rw [if_neg hcond] at h
        exact absurd h (by simp)

lemma lookupKey_metaStep_no_contrib (md : List (String × String)) (t : MetaTag) (k : String)
    (h : metaContrib k t = none) :
    lookupKey k (metaStep md t) = lookupKey k md := by
  unfold metaContrib at h
  unfold metaStep
  cases hn : pyOr t.name t.property with
  | none => rfl
  | some n =>
    cases hc : t.content with
    | none => rfl
    | some c' =>
      simp only [hn, hc] at h ⊢
      by_cases hcond : n ≠ "" ∧ c' ≠ ""
      · rw [if_pos hcond]
        have hk : n ≠ k := by
          intro hk
          rw [if_pos (And.intro hk hcond)] at h
          exact Option.some_ne_none c' h
        exact lookupKey_setKey_ne md k n c' hk
      · rw [if_neg hcond]

lemma lookupKey_foldl_metaStep (tags : List MetaTag) (md : List (String × String)) (k : String) :
    lookupKey k (List.foldl metaStep md tags) =
      match lastContrib k tags with
      | some c => some c
      | none => lookupKey k md := by
  induction tags generalizing md with
  | nil => rfl
  | cons t ts ih =>
    simp only [List.foldl_cons, lastContrib]
    rw [ih (metaStep md t)]
    cases hts : lastContrib k ts with
    | some c => rfl
    | none =>
      cases ht : metaContrib k t with
      | some c => exact lookupKey_metaStep_contrib md t k c ht
      | none => exact lookupKey_metaStep_no_contrib md t k ht

/-- C7: the generic strategy's metadata mapping agrees, at every key,
with the specification-side description: per tag the key is the "name"
attribute when present and non-empty, otherwise the "property"
attribute; `key ↦ content` is recorded only when both are present and
non-empty; and among the tags (processed in document order) producing
the same key, the LAST one's content is the value in the final
mapping. -/
theorem metadata_lookup_c7 (tags : List MetaTag) (k : String) :
    lookupKey k (extractMetadata tags) = lastContrib k tags := by
  rw [extractMetadata, lookupKey_foldl_metaStep tags [] k]
  cases lastContrib k tags <;> rfl

/-! ## Site-specific page scrape (`accupass_scraper.py` lines 42-140)

A page is a finite map from selectors to the element `query_selector`
returns plus a finite map from selectors to the card list
`query_selector_all` returns.  Navigation, viewport setup and the scroll
loop (whose control behaviour is `loadStateAfter` above) only mutate the
live DOM; `accupassScrape` models the scrape on the settled DOM: find
the first matching card selector (raising when none matches), then
extract every card. -/

structure Page where
  elems : List (String × Elem)
  cardsBySel : List (String × List Card)

/-- `page.query_selector(sel)`. -/
def Page.querySelector (p : Page) (sel : String) : Option Elem :=
  lookupKey sel p.elems

/-- `page.query_selector_all(sel)`. -/
def Page.queryAll (p : Page) (sel : String) : List Card :=
  (lookupKey sel p.cardsBySel).getD []

/-- `AccupassScraper.scrape` after navigation: the card-selector
fallback loop (lines 42-50, `raise Exception('無法找到活動卡片')` when no
candidate matches) followed by per-card extraction (lines 93-140). -/
def accupassScrape (p : Page) (cfg : SelectorCfg) (base : String) :
    Except String (List EventRecord) :=
  match cfg.card.find? (fun s => (p.querySelector s).isSome) with
  | none => Except.error "無法找到活動卡片"
  | some sel => Except.ok (extractAll (p.queryAll sel) cfg base)

/-! ## Dispatcher (`main.py` lines 174-232)

The `/scrape` endpoint: reject an unregistered site with HTTP 400;
otherwise import the site-specific scraper module when one exists, else
fall back to `GenericScraper` with the URL resolved from the registry;
any exception escaping a scraper is caught and converted to an HTTP 500
`status:"error"` response.  Module importability is modelled by the
`hasModule` predicate, the browser by the `p`/`fetch` capabilities and
`urllib.parse.urlencode` by the `ue` capability. -/

structure SiteCfg where
  base_url : String
  search_path : String
  selectors : SelectorCfg
  default_params : List (String × String)
deriving DecidableEq

structure ScrapeRequest where
  site : String
  url : Option String
  params : List (String × String)
deriving DecidableEq

/-- What the browser session yields for a navigated URL in the generic
strategy: final URL, title, HTML and the meta tags in document order. -/
structure GPage where
  finalUrl : String
  title : String
  html : String
  metas : List MetaTag

structure PageRecord where
  url : String
  title : String
  html : String
  metadata : List (String × String)
deriving DecidableEq

inductive RespData
  | events (l : List EventRecord)
  | pages (l : List PageRecord)
deriving DecidableEq

structure ApiResponse where
  httpStatus : Nat
  status : String
  data : RespData
  message : String
deriving DecidableEq

/-- URL fallback of the dispatcher (`main.py` lines 197-201): when the
caller's URL is falsy and the registry has a truthy `base_url`, the
request URL becomes `base_url` + `search_path` (just `base_url` when the
path is empty); otherwise the caller's URL stays as it is. -/
def resolveGenericUrl (requrl : Option String) (sc : SiteCfg) : Option String :=
  if pyTruthy requrl = false ∧ sc.base_url ≠ "" then
    some (if sc.search_path ≠ "" then sc.base_url ++ sc.search_path else sc.base_url)
  else requrl

/-- Query-string appending of `GenericScraper.scrape` (lines 28-31). -/
def addQuery (ue : List (String × String) → String) (url : String)
    (params : List (String × String)) : String :=
  if strContainsChar url '?' then url ++ "&" ++ ue params else url ++ "?" ++ ue params

/-- `GenericScraper.scrape` (lines 14-112): raise `ValueError` on a
falsy URL, append the params as a query string, navigate (the scroll
loop is `loadStateAfter` keyed on page height) and return the single
page record. -/
def genericScrape (fetch : String → GPage) (ue : List (String × String) → String)
    (url : Option String) (params : List (String × String)) :
    Except String (List PageRecord) :=
  match url with
  | none => Except.error "必須提供URL"
  | some u =>
    if u = "" then Except.error "必須提供URL"
    else
      let g := fetch (if params = [] then u else addQuery ue u params)
      Except.ok [PageRecord.mk g.finalUrl g.title g.html (extractMetadata g.metas)]

/-- Success message of the `/scrape` endpoint. -/
def successMsg (site : String) (n : Nat) : String :=
  "成功從 " ++ site ++ " 抓取 " ++ toString n ++ " 條數據"

/-- Packaging of a site-specific scrape result (`main.py` lines
203-232): success responses are HTTP 200, any caught exception becomes
an HTTP 500 `status:"error"` response with empty data. -/
def mkEventResponse (site : String) (r : Except String (List EventRecord)) : ApiResponse :=
  match r with
  | Except.ok evs =>
    ApiResponse.mk 200 "success" (RespData.events evs) (successMsg site evs.length)
  | Except.error m => ApiResponse.mk 500 "error" (RespData.events []) m

/-- Packaging of a generic scrape result, same error convention. -/
def mkPageResponse (site : String) (r : Except String (List PageRecord)) : ApiResponse :=
  match r with
  | Except.ok pgs =>
    ApiResponse.mk 200 "success" (RespData.pages pgs) (successMsg site pgs.length)
  | Except.error m => ApiResponse.mk 500 "error" (RespData.events []) m

/-- The `/scrape` endpoint (`main.py` lines 174-232).  The strategy is
chosen once, from the registry lookup and module availability, before
any navigation happens; an unregistered site is an HTTP 400
`HTTPException` (re-raised past the generic handler). -/
def scrapeEndpoint (reg : List (String × SiteCfg)) (hasModule : String → Bool)
    (p : Page) (fetch : String → GPage) (ue : List (String × String) → String)
    (req : ScrapeRequest) : ApiResponse :=
  match lookupKey req.site reg with
  | none =>
    ApiResponse.mk 400 "error" (RespData.events [])
      ("不支持的網站: " ++ req.site ++ "，可用的網站有: " ++
        String.intercalate ", " (reg.map Prod.fst))
  | some sc =>
    if hasModule req.site then
      mkEventResponse req.site (accupassScrape p sc.selectors sc.base_url)
    else
      mkPageResponse req.site
        (genericScrape fetch ue (resolveGenericUrl req.url sc) req.params)

/-- C6: under the site-specific strategy, a page on which no candidate
card selector matches anything makes the whole scrape call fail, and the
dispatcher surfaces it as an HTTP 500 server-side failure; this is
distinct from zero results — when a card selector does match but the
matched cards yield no extractable items, the endpoint returns an empty
list with HTTP 200 success. -/
theorem card_selector_failure_c6 (reg : List (String × SiteCfg)) (hasModule : String → Bool)
    (p : Page) (fetch : String → GPage) (ue : List (String × String) → String)
    (req : ScrapeRequest) (sc : SiteCfg)
    (hreg : lookupKey req.site reg = some sc)
    (hmod : hasModule req.site = true) :
    ((∀ s ∈ sc.selectors.card, p.querySelector s = none) →
      scrapeEndpoint reg hasModule p fetch ue req =
        ApiResponse.mk 500 "error" (RespData.events []) "無法找到活動卡片") ∧
    (∀ sel, sc.selectors.card.find? (fun s => (p.querySelector s).isSome) = some sel →
      extractAll (p.queryAll sel) sc.selectors sc.base_url = [] →
      scrapeEndpoint reg hasModule p fetch ue req =
        ApiResponse.mk 200 "success" (RespData.events []) (successMsg req.site 0)) := by
  constructor
  · intro hnone
    have hfind : sc.selectors.card.find? (fun s => (p.querySelector s).isSome) = none := by
      rw [List.find?_eq_none]
      intro s hs
      simp [hnone s hs]
    simp [scrapeEndpoint, hreg, hmod, mkEventResponse, accupassScrape, hfind]
  · intro sel hfind hempty
    simp [scrapeEndpoint, hreg, hmod, mkEventResponse, accupassScrape, hfind, hempty]

/-- Registered site configuration used by concrete witnesses. -/
def siteW : SiteCfg :=
  SiteCfg.mk "https://x.test" "/search" (SelectorCfg.mk ["C"] ["LK"] ["T"] ["TM"] ["L"]) []

/-- A page where no selector matches anything. -/
def emptyPage : Page := Page.mk [] []

/-- A page whose card selector "C" matches, with an empty card list. -/
def emptyCardsPage : Page := Page.mk [("C", Elem.mk "x" none)] [("C", [])]

def dummyFetch : String → GPage := fun u => GPage.mk u "t" "<html></html>" []

def dummyUe : List (String × String) → String := fun _ => ""

/-- C6 witness: both outcomes at concrete pages — no matching card
selector yields the 500 failure, a matching selector with no items
yields the 200 empty success. -/
theorem card_selector_failure_c6_witness :
    scrapeEndpoint [("accupass", siteW)] (fun _ => true) emptyPage dummyFetch dummyUe
        (ScrapeRequest.mk "accupass" none []) =
      ApiResponse.mk 500 "error" (RespData.events []) "無法找到活動卡片" ∧
    scrapeEndpoint [("accupass", siteW)] (fun _ => true) emptyCardsPage dummyFetch dummyUe
        (ScrapeRequest.mk "accupass" none []) =
      ApiResponse.mk 200 "success" (RespData.events []) (successMsg "accupass" 0) :=
  And.intro
    ((card_selector_failure_c6 [("accupass", siteW)] (fun _ => true) emptyPage dummyFetch
        dummyUe (ScrapeRequest.mk "accupass" none []) siteW rfl rfl).1 (by decide))
    ((card_selector_failure_c6 [("accupass", siteW)] (fun _ => true) emptyCardsPage dummyFetch
        dummyUe (ScrapeRequest.mk "accupass" none []) siteW rfl rfl).2 "C" (by decide)
      (by decide))

/-- C8: a registered site with no site-specific extraction module is
dispatched to the generic strategy — decided once, before any
navigation — and when the caller supplies no URL the target URL handed
to that strategy is the registry's `base_url` concatenated with
`search_path`. -/
theorem dispatch_generic_fallback_c8 (reg : List (String × SiteCfg)) (hasModule : String → Bool)
    (p : Page) (fetch : String → GPage) (ue : List (String × String) → String)
    (req : ScrapeRequest) (sc : SiteCfg)
    (hreg : lookupKey req.site reg = some sc)
    (hmod : hasModule req.site = false)
    (hurl : req.url = none)
    (hbase : sc.base_url ≠ "") (hpath : sc.search_path ≠ "") :
    resolveGenericUrl req.url sc = some (sc.base_url ++ sc.search_path) ∧
    scrapeEndpoint reg hasModule p fetch ue req =
      mkPageResponse req.site
        (genericScrape fetch ue (some (sc.base_url ++ sc.search_path)) req.params) := by
  have h1 : resolveGenericUrl req.url sc = some (sc.base_url ++ sc.search_path) := by
    simp [resolveGenericUrl, hurl, pyTruthy, hbase, hpath]
  exact And.intro h1 (by simp [scrapeEndpoint, hreg, hmod, h1])

/-- C8 witness at a concrete registry, request and browser. -/
theorem dispatch_generic_fallback_c8_witness :
    resolveGenericUrl none siteW = some ("https://x.test" ++ "/search") ∧
    scrapeEndpoint [("evt", siteW)] (fun _ => false) emptyPage dummyFetch dummyUe
        (ScrapeRequest.mk "evt" none []) =
      mkPageResponse "evt"
        (genericScrape dummyFetch dummyUe (some ("https://x.test" ++ "/search")) []) :=
  dispatch_generic_fallback_c8 [("evt", siteW)] (fun _ => false) emptyPage dummyFetch dummyUe
    (ScrapeRequest.mk "evt" none []) siteW rfl rfl rfl (by decide) (by decide)

/-- Registered site with no base URL configured. -/
def bareSite : SiteCfg := SiteCfg.mk "" "" (SelectorCfg.mk [] [] [] [] []) []

/-- C9 counterexample: a request for a registered site with no
site-specific module, no configured base URL and no caller URL fails
with the missing-URL error, but the endpoint surfaces it as an HTTP 500
server-side failure — not as a client error (400). -/
theorem unresolved_target_server_error_c9 :
    scrapeEndpoint [("x", bareSite)] (fun _ => false) emptyPage dummyFetch dummyUe
        (ScrapeRequest.mk "x" none []) =
      ApiResponse.mk 500 "error" (RespData.events []) "必須提供URL" ∧
    (scrapeEndpoint [("x", bareSite)] (fun _ => false) emptyPage dummyFetch dummyUe
        (ScrapeRequest.mk "x" none [])).httpStatus ≠ 400 := by
  decide

/-- C9 (amended): a request that cannot be mapped to any navigable URL
(registered site, no site-specific module, falsy base URL and falsy
caller URL) fails with `GenericScraper`'s missing-URL `ValueError`
(`必須提供URL`), which the dispatcher's generic exception handler
surfaces as an HTTP 500 server-side `status:"error"` response — not as
a client error. -/
theorem unresolved_target_amended_c9 (reg : List (String × SiteCfg)) (hasModule : String → Bool)
    (p : Page) (fetch : String → GPage) (ue : List (String × String) → String)
    (req : ScrapeRequest) (sc : SiteCfg)
    (hreg : lookupKey req.site reg = some sc)
    (hmod : hasModule req.site = false)
    (hurl : pyTruthy req.url = false)
    (hbase : sc.base_url = "") :
    scrapeEndpoint reg hasModule p fetch ue req =
      ApiResponse.mk 500 "error" (RespData.events []) "必須提供URL" := by
  have h1 : resolveGenericUrl req.url sc = req.url := by
    simp [resolveGenericUrl, hbase]
  cases hu : req.url with
  | none =>
    rw [hu] at h1
    simp [scrapeEndpoint, hreg, hmod, h1, hu, genericScrape, mkPageResponse]
  | some u =>
    have hu0 : u = "" := by
      rw [hu] at hurl
      simpa [pyTruthy] using hurl
    subst hu0
    rw [hu] at h1
    simp [scrapeEndpoint, hreg, hmod, h1, hu, genericScrape, mkPageResponse]

/-- C9 amended-theorem witness, with the caller URL being the falsy
empty string this time. -/
theorem unresolved_target_amended_c9_witness :
    scrapeEndpoint [("y", bareSite)] (fun _ => false) emptyPage dummyFetch dummyUe
        (ScrapeRequest.mk "y" (some "") []) =
      ApiResponse.mk 500 "error" (RespData.events []) "必須提供URL" :=
  unresolved_target_amended_c9 [("y", bareSite)] (fun _ => false) emptyPage dummyFetch dummyUe
    (ScrapeRequest.mk "y" (some "") []) bareSite rfl rfl (by decide) rfl

/-! ## URL building (`scraper_base.py` lines 70-94)

`build_url` joins the base URL with the path stripped of leading slashes
(`urljoin` and `urlencode` are standard-library collaborators, passed in
as the capabilities `jf` and `ue`), then merges the caller's params into
the site's default params and appends them as a query string.  The
source's `all_params = self.get_default_params()` does NOT copy: it
aliases `site_config['default_params']`, and `all_params.update(params)`
mutates that dict in place.  The embedding therefore passes the state
through: the second component of the result is the site's
`default_params` dict as it stands after the call. -/

/-- Python `dict(defaults); .update(ps)` insertion-ordered overwrite. -/
def mergeParams (defaults ps : List (String × String)) : List (String × String) :=
  ps.foldl (fun m kv => setKey m kv.1 kv.2) defaults

/-- `ScraperBase.build_url`, with the post-call `default_params` as the
second component (the merge is an in-place `dict.update` on the aliased
config dict; with a falsy `params` no update runs). -/
def build_url (jf : String → String → String) (ue : List (String × String) → String)
    (base_url : String) (default_params : List (String × String))
    (path : String) (params : Option (List (String × String))) :
    String × List (String × String) :=
  let url := jf base_url (stripLeadingSlashes path)
  let all_params :=
    match params with
    | some ps => if ps = [] then default_params else mergeParams default_params ps
    | none => default_params
  (if all_params = [] then url else url ++ "?" ++ ue all_params, all_params)

/-- `urljoin` instance for an absolute base with no trailing slash. -/
def joinUrl (b p : String) : String := b ++ "/" ++ p

/-- `urlencode` instance for values needing no percent-escaping. -/
def urlencodePairs (ps : List (String × String)) : String :=
  String.intercalate "&" (ps.map (fun kv => kv.1 ++ "=" ++ kv.2))

/-- C10: at the failing input (defaults `{a: 1}`, caller params
`{b: 2}`), `build_url` leaves the site's `default_params` mutated to
`{a: 1, b: 2}` — not unchanged as the claim (and the data-model
immutability of the spec) requires; without caller params no mutation
happens, and a caller value does override a default of the same key in
the produced URL. -/
theorem build_url_mutation_c10 :
    (build_url joinUrl urlencodePairs "https://x.test" [("a", "1")] "search"
        (some [("b", "2")])).2 = [("a", "1"), ("b", "2")] ∧
    (build_url joinUrl urlencodePairs "https://x.test" [("a", "1")] "search"
        (some [("b", "2")])).2 ≠ [("a", "1")] ∧
    (build_url joinUrl urlencodePairs "https://x.test" [("a", "1")] "search" none).2 =
      [("a", "1")] ∧
    (build_url joinUrl urlencodePairs "https://x.test" [("t", "all")] "search"
        (some [("t", "free")])).1 = "https://x.test/search?t=free" := by
  decide

end Scrapers
